import Mathlib

/-!
Shallow embedding of `src/src/hooks/useSTT.js`, a Vue hook implementing a
voice-activation pipeline: wake-word listening, a recording session with
silence-based auto-stop driven by an audio-energy monitor, and a
single-flight transcription dispatcher.

The mutable module-level variables of the JavaScript module become fields of an
explicit state record `STTState`.  Asynchronous callbacks (recorder stop and
error handlers, the silence-timeout callback, the energy-monitor tick, the
transcription promise continuations) become pure functions on that state,
parameterised by the external outcomes they await (permission grant/denial,
transcription response).  `setTimeout`/`clearTimeout` are modelled by an
explicit multiset of pending silence timers plus the id stored in the
`silenceTimer` variable; `requestAnimationFrame` ids by a counter.  Side
effects on external resources (stopping stream tracks, closing the audio
context, dispatching the payload) are recorded as explicit event traces so
that ordering claims can be stated.
-/

namespace STT

/-- The `MediaRecorder.state` values. -/
inductive RecState
  | inactive
  | recording
  | paused
deriving DecidableEq, Repr

/-- One entry of `conversationHistory`
(the record the source pushes has a type marker, a text, and a timestamp). -/
structure HistoryRecord where
  type : String
  text : String
  timestamp : String
deriving DecidableEq, Repr

/-- The module-level mutable state of `useSTT.js` (reactive refs and plain
variables alike), plus the bookkeeping needed to model timers and
animation frames explicitly. -/
structure STTState where
  /-- The `error` ref. -/
  error : String
  /-- The `status` ref. -/
  status : String
  /-- The `talkText` ref: the most recent recognized text. -/
  talkText : String
  /-- The `permissionStatus` ref. -/
  permissionStatus : String
  /-- The `isRecording` ref. -/
  isRecording : Bool
  /-- The `conversationHistory` ref. -/
  conversationHistory : List HistoryRecord
  /-- The `silenceTimer` variable: the id last returned by `setTimeout`, if any. -/
  silenceTimer : Option Nat
  /-- The `recognition` variable: whether a SpeechRecognition instance exists. -/
  recognition : Bool
  /-- The `mediaRecorder` variable: the recorder instance with its state, if any. -/
  mediaRecorder : Option RecState
  /-- The `audioContext` variable: whether an AudioContext instance exists. -/
  audioContext : Bool
  /-- The `audioChunks` variable: buffered encoded chunks (modelled by their
  sizes), in arrival order. -/
  audioChunks : List Nat
  /-- The `animationFrameId` variable. -/
  animationFrameId : Option Nat
  /-- The `isListening` variable. -/
  isListening : Bool
  /-- The `isPromptDetected` variable: wake word detected. -/
  isPromptDetected : Bool
  /-- The `isWaitingForResponse` variable: the in-flight transcription guard. -/
  isWaitingForResponse : Bool
  /-- The `isInitialized` variable (local to the `useSTT` closure). -/
  isInitialized : Bool
  /-- Pending silence timeouts scheduled via `setTimeout` and not yet fired
  or cancelled: pairs of (timer id, delay in ms). -/
  pendingSilence : List (Nat × Nat)
  /-- Next fresh `setTimeout` id. -/
  nextTimerId : Nat
  /-- Next fresh `requestAnimationFrame` id. -/
  nextFrameId : Nat
deriving DecidableEq, Repr

/-- The `WAKE_WORD` constant. -/
def WAKE_WORD : String := "小瞳小瞳"

/-- The `SILENCE_TIMEOUT` constant (ms). -/
def SILENCE_TIMEOUT : Nat := 1500

/-- The `AUDIO_ENERGY_THRESHOLD` constant. -/
def AUDIO_ENERGY_THRESHOLD : Nat := 20

/-- Whether `pat` occurs at the head of `l`. -/
def listStartsWith : List Char → List Char → Bool
  | [], _ => true
  | _ :: _, [] => false
  | a :: pat, b :: l => a = b && listStartsWith pat l

/-- Whether `pat` occurs as a contiguous subsequence of `l`. -/
def listContainsSeq (pat : List Char) : List Char → Bool
  | [] => pat.isEmpty
  | c :: l => listStartsWith pat (c :: l) || listContainsSeq pat l

/-- JavaScript `haystack.includes(needle)` on strings. -/
def strIncludes (haystack needle : String) : Bool :=
  listContainsSeq needle.data haystack.data

/-- Drop leading whitespace characters. -/
def dropWhitespaceLead : List Char → List Char
  | [] => []
  | c :: cs => if c.isWhitespace then dropWhitespaceLead cs else c :: cs

/-- JavaScript `s.trim()`: strip whitespace from both ends
(modelled over the character list of the string). -/
def jsTrim (s : String) : List Char :=
  (dropWhitespaceLead (dropWhitespaceLead s.data.reverse).reverse)

/-- The `clearTimeout(silenceTimer)`: cancels the pending timeout whose id is
held in the `silenceTimer` variable (a no-op when the variable is null or
the timer already fired).  The variable itself is not nulled, matching the
source. -/
def clearSilenceTimeout (s : STTState) : STTState :=
  match s.silenceTimer with
  | none => s
  | some id => { s with pendingSilence := s.pendingSilence.filter (fun p => p.1 ≠ id) }

/-- The `resetSilenceTimer` (useSTT.js:193-202): `clearTimeout(silenceTimer)`
then `silenceTimer = setTimeout(callback, SILENCE_TIMEOUT)`. -/
def resetSilenceTimer (s : STTState) : STTState :=
  let s := clearSilenceTimeout s
  { s with silenceTimer := some s.nextTimerId
         , pendingSilence := s.pendingSilence ++ [(s.nextTimerId, SILENCE_TIMEOUT)]
         , nextTimerId := s.nextTimerId + 1 }

/-- The callback passed to `setTimeout` in `resetSilenceTimer`: when the
pending silence timeout expires naturally, stop the recorder only if
the recorder still exists in `recording` state.  Returns the new state and whether
`mediaRecorder.stop()` was invoked. -/
def silenceTimeoutCallback (s : STTState) : STTState × Bool :=
  if s.mediaRecorder = some RecState.recording then
    ({ s with status := "静音超时，自动停止录音"
            , mediaRecorder := some RecState.inactive }, true)
  else (s, false)

/-- Observable external effects performed while a session is torn down and
its payload dispatched, in the order they are performed. -/
inductive CleanupEvent
  | assemblePayload
  | stopTracks
  | releaseRecorder
  | closeAudioContext
  | clearSilenceTimer
  | cancelFrame
  | dispatch
deriving DecidableEq, Repr

/-- The `cleanupRecordingResources(stream)` (useSTT.js:123-146): stop all stream
tracks; null out the recorder if present; close the audio context if
present; `clearTimeout(silenceTimer)`; cancel the pending animation frame if
present; reset the recording and wake-detected flags.  Returns the new state
and the trace of release actions in source order. -/
def cleanupRecordingResources (s : STTState) : STTState × List CleanupEvent :=
  let evs : List CleanupEvent := [CleanupEvent.stopTracks]
  let (s, evs) :=
    match s.mediaRecorder with
    | some _ => ({ s with mediaRecorder := none }, evs ++ [CleanupEvent.releaseRecorder])
    | none => (s, evs)
  let (s, evs) :=
    if s.audioContext then
      ({ s with audioContext := false }, evs ++ [CleanupEvent.closeAudioContext])
    else (s, evs)
  let s := clearSilenceTimeout s
  let evs := evs ++ [CleanupEvent.clearSilenceTimer]
  let (s, evs) :=
    match s.animationFrameId with
    | some _ => ({ s with animationFrameId := none }, evs ++ [CleanupEvent.cancelFrame])
    | none => (s, evs)
  ({ s with isRecording := false, isPromptDetected := false }, evs)

/-- The multipart form data sent to the transcription endpoint:
`file` (the audio payload) and `model` (a fixed identifier). -/
structure TranscriptionRequest where
  file : List Nat
  model : String
deriving DecidableEq, Repr

/-- Outcome of the remote transcription call: a resolved response whose
`data?.text` may be absent, or a rejected promise whose error message may be
absent. -/
inductive TranscriptionResponse
  | success (text : Option String)
  | failure (msg : Option String)
deriving DecidableEq, Repr

/-- First half of `processAudioWithModel` (useSTT.js:208-220): the
synchronous part up to and including issuing the remote call.  If the
in-flight guard is set, return unchanged with no request; otherwise set the
guard, set the status, and build the request (`file` = audio blob, `model` =
the fixed identifier). -/
def processAudioStart (s : STTState) (audioBlob : List Nat) :
    STTState × Option TranscriptionRequest :=
  if s.isWaitingForResponse then (s, none)
  else
    ({ s with isWaitingForResponse := true, status := "正在识别..." },
     some ⟨audioBlob, "FunAudioLLM/SenseVoiceSmall"⟩)

/-- Second half of `processAudioWithModel` (useSTT.js:221-246): the
`then`/`catch` continuations followed by the `finally` that clears the
in-flight guard.  On success, `recognizedText`, the response text defaulted to the empty string, is
written to `talkText` unconditionally and appended to the history only when
non-empty; on failure, error and status are set. -/
def processAudioComplete (s : STTState) (resp : TranscriptionResponse)
    (now : String) : STTState :=
  let s :=
    match resp with
    | TranscriptionResponse.success text =>
      let recognizedText := text.getD ("")
      let s := { s with talkText := recognizedText }
      let s :=
        if recognizedText ≠ "" then
          { s with conversationHistory :=
              s.conversationHistory ++
                [({ type := "user", text := recognizedText, timestamp := now } :
                    HistoryRecord)] }
        else s
      { s with status := "大模型识别成功" }
    | TranscriptionResponse.failure msg =>
      { s with error := "识别失败: " ++ msg.getD ("未知错误")
             , status := "大模型识别失败" }
  { s with isWaitingForResponse := false }

/-- The `processAudioWithModel(audioBlob)` (useSTT.js:208-246) as one step: the
guard check, the remote call if the guard was clear, and the completion
continuations for the given response.  Returns the final state and the
request that was sent, if any. -/
def processAudioWithModel (s : STTState) (audioBlob : List Nat)
    (resp : TranscriptionResponse) (now : String) :
    STTState × Option TranscriptionRequest :=
  let (s1, req) := processAudioStart s audioBlob
  match req with
  | some r => (processAudioComplete s1 resp now, some r)
  | none => (s1, none)

/-- The `mediaRecorder.onstop` (useSTT.js:91-99): assemble the buffered chunks
into one blob, clean up the recording resources, then hand the blob to
`processAudioWithModel`.  Returns the final state, the effect trace, the
assembled payload, and the request sent (if the guard was clear). -/
def mediaRecorderOnStop (s : STTState) (resp : TranscriptionResponse)
    (now : String) :
    STTState × List CleanupEvent × List Nat × Option TranscriptionRequest :=
  let audioBlob := s.audioChunks
  let (s1, evs) := cleanupRecordingResources s
  let (s2, req) := processAudioWithModel s1 audioBlob resp now
  (s2, (CleanupEvent.assemblePayload :: evs) ++ [CleanupEvent.dispatch], audioBlob, req)

/-- The `mediaRecorder.onerror` (useSTT.js:101-106): set the error and status,
then run the same cleanup path as a normal stop.  No payload is assembled
and nothing is handed to the dispatcher. -/
def mediaRecorderOnError (s : STTState) (errMsg : String) :
    STTState × List CleanupEvent :=
  cleanupRecordingResources
    { s with error := "录音失败: " ++ errMsg, status := "录音失败" }

/-- Whether the arithmetic mean of a sample frame exceeds the energy threshold:
`array.reduce((sum, v) => sum + v, 0) / array.length > AUDIO_ENERGY_THRESHOLD`
(useSTT.js:171-174).  The byte magnitudes and their count (512 = fftSize/2)
make the floating-point division exact, so for a non-empty frame the
comparison `sum / len > 20` is exactly `sum > 20 * len`; for an empty frame
JavaScript compares `NaN > 20`, which is false, as is `0 < 0` here. -/
def averageEnergyExceeds (samples : List Nat) : Bool :=
  AUDIO_ENERGY_THRESHOLD * samples.length < samples.sum

/-- Result of one `checkAudioEnergy` tick. -/
structure MonitorTick where
  state : STTState
  /-- the tick got past the recorder-state guard and sampled audio -/
  sampled : Bool
  /-- the tick called `resetSilenceTimer` -/
  timerReset : Bool
  /-- the tick re-scheduled itself via `requestAnimationFrame` -/
  rescheduled : Bool
deriving Repr

/-- One tick of the `checkAudioEnergy` polling loop inside
`setupAudioEnergyMonitoring` (useSTT.js:162-180): if the recorder is absent
or not in `recording` state, return immediately (no sampling, no timer
reset, no re-scheduling); otherwise sample the frequency bins, reset the
silence timer when the mean exceeds the threshold, and re-schedule the next
frame. -/
def checkAudioEnergy (s : STTState) (samples : List Nat) : MonitorTick :=
  match s.mediaRecorder with
  | some RecState.recording =>
    let exceeded := averageEnergyExceeds samples
    let s := if exceeded then resetSilenceTimer s else s
    let s := { s with animationFrameId := some s.nextFrameId
                    , nextFrameId := s.nextFrameId + 1 }
    ⟨s, true, exceeded, true⟩
  | _ => ⟨s, false, false, false⟩

/-- The `setupAudioEnergyMonitoring(stream)` (useSTT.js:152-188), success path:
create the audio context and analyser and schedule the first
`checkAudioEnergy` frame.  (The `catch` branch only sets `error`.) -/
def setupAudioEnergyMonitoring (s : STTState) : STTState :=
  { s with audioContext := true
         , animationFrameId := some s.nextFrameId
         , nextFrameId := s.nextFrameId + 1 }

/-- The `startRecording(stream)` (useSTT.js:75-117): reset the chunk buffer,
clear any pending silence timeout, set status and the recording flag, create
the recorder and its handlers, set up energy monitoring, start the recorder,
and arm the silence timer. -/
def startRecording (s : STTState) : STTState :=
  let s := { s with audioChunks := [] }
  let s := clearSilenceTimeout s
  let s := { s with status := "录音中", isRecording := true }
  let s := { s with mediaRecorder := some RecState.recording }
  let s := setupAudioEnergyMonitoring s
  resetSilenceTimer s

/-- The `mediaRecorder.ondataavailable` (useSTT.js:85-89): append the chunk to
the buffer when its size is positive. -/
def onDataAvailable (s : STTState) (size : Nat) : STTState :=
  if 0 < size then { s with audioChunks := s.audioChunks ++ [size] } else s

/-- Outcome of a `navigator.mediaDevices.getUserMedia` permission request:
granted with a stream, or rejected with an error name and message. -/
inductive PermissionOutcome
  | granted
  | denied (errName : String) (errMsg : String)
deriving DecidableEq, Repr

/-- The `requestPermissionAndStartRecording` (useSTT.js:36-68): clear the error,
set the wake-detected flag, request microphone permission; on grant, record
the permission and start recording; on rejection, record the denial, reset
the wake-detected flag, and set an error message keyed on the error name. -/
def requestPermissionAndStartRecording (s : STTState)
    (perm : PermissionOutcome) : STTState :=
  let s := { s with error := "", isPromptDetected := true }
  match perm with
  | PermissionOutcome.granted =>
    startRecording { s with permissionStatus := "granted", status := "录音准备中" }
  | PermissionOutcome.denied name msg =>
    let s := { s with permissionStatus := "denied", isPromptDetected := false }
    let ev :=
      if name = "NotAllowedError" then ("用户拒绝了麦克风权限")
      else if name = "NotFoundError" then ("未找到麦克风设备")
      else if name = "NotSupportedError" then ("浏览器不支持麦克风访问")
      else ("获取麦克风权限失败: ") ++ msg
    { s with error := ev, status := "获取麦克风权限失败: " ++ ev }

/-- The `handleRecognitionResult(event)` (useSTT.js:252-267), applied to the
transcript of the most recent result entry: when neither the wake-detected flag
nor the recording flag is set and the trimmed transcript contains
`WAKE_WORD`, set the wake-detected flag and status and invoke
`requestPermissionAndStartRecording`.  Returns the new state and whether the
wake path was invoked (the permission request is its first asynchronous
step). -/
def handleRecognitionResult (s : STTState) (transcript : String) :
    STTState × Bool :=
  let t := jsTrim transcript
  if !s.isPromptDetected && !s.isRecording then
    if listContainsSeq WAKE_WORD.data t then
      ({ s with isPromptDetected := true, status := "检测到唤醒词，准备录音" }, true)
    else (s, false)
  else (s, false)

/-- Browser capability environment checked by `init`. -/
structure Env where
  /-- The `window.SpeechRecognition || window.webkitSpeechRecognition` truthy. -/
  speechRecognitionSupported : Bool
  /-- The `navigator.mediaDevices && navigator.mediaDevices.getUserMedia` truthy. -/
  getUserMediaSupported : Bool
deriving DecidableEq, Repr

/-- The `init()` (useSTT.js:283-309): idempotent; fails when the recognition or
microphone APIs are unsupported; otherwise runs `initRecognition` (which
creates the instance and sets the status) and marks initialized. -/
def init (s : STTState) (env : Env) : STTState × Bool :=
  if s.isInitialized then (s, true)
  else if !env.speechRecognitionSupported then
    ({ s with error := "浏览器不支持语音识别API"
            , status := "浏览器不支持语音识别" }, false)
  else if !env.getUserMediaSupported then
    ({ s with error := "浏览器不支持 getUserMedia API"
            , status := "浏览器不支持 getUserMedia API" }, false)
  else
    ({ s with recognition := true, status := "已初始化", isInitialized := true }, true)

/-- How the promise returned by `start()` settles. -/
inductive PromiseOutcome
  | resolved (value : Bool)
  | rejected
deriving DecidableEq, Repr

/-- The `start()` (useSTT.js:387-432): ensure initialization (resolving `false`
when `init` fails); when a recognition instance exists and the listener is
not yet active, mark listening and request microphone permission — on grant
start the engine and resolve `true`, on rejection record the denial, reset
the listening flag, set an error message and resolve `false`; in every
other case set the status and resolve `true`. -/
def start (s : STTState) (env : Env) (perm : PermissionOutcome) :
    STTState × PromiseOutcome :=
  let (s, initOk) :=
    if !s.isInitialized then init s env else (s, true)
  if !initOk then (s, PromiseOutcome.resolved false)
  else if s.recognition && !s.isListening then
    let s := { s with isListening := true, status := "监听中" }
    match perm with
    | PermissionOutcome.granted =>
      ({ s with permissionStatus := "granted" }, PromiseOutcome.resolved true)
    | PermissionOutcome.denied name msg =>
      let s := { s with permissionStatus := "denied", isListening := false }
      let ev :=
        if name = "NotAllowedError" then ("用户拒绝了麦克风权限")
        else if name = "NotFoundError" then ("未找到麦克风设备")
        else ("获取麦克风权限失败: ") ++ msg
      ({ s with error := ev, status := "获取麦克风权限失败: " ++ ev },
       PromiseOutcome.resolved false)
  else
    ({ s with status := "监听中" }, PromiseOutcome.resolved true)

/-- Observable external actions of the teardown path, in order. -/
inductive StopEvent
  | stopRecognition
  | stopRecorder
  | clearSilenceTimer
  | cancelFrame
  | closeAudioContext
deriving DecidableEq, Repr

/-- Dereference a nullable value, failing with a TypeError the way
JavaScript member access on `null` would. -/
def deref {α : Type} (x : Option α) : Except String α :=
  match x with
  | some v => Except.ok v
  | none => Except.error ("TypeError: member access on null")

/-- The `stopListening()` (useSTT.js:437-444): when a recognition instance
exists and the listener is active, clear the flag, call
`recognition.stop()` and set the status.  Member access on the instance is
modelled through `deref`, so an unguarded access on a missing instance
would surface as a TypeError. -/
def stopListening (s : STTState) : Except String (STTState × List StopEvent) :=
  if s.recognition && s.isListening then do
    let _ ← deref (if s.recognition then some () else none)
    Except.ok ({ s with isListening := false, status := "已停止监听" },
               [StopEvent.stopRecognition])
  else Except.ok (s, [])

/-- The `stopRecording()` (useSTT.js:449-467): stop the recorder when present
and not inactive, clear the silence timeout, cancel the pending animation
frame when present, and close the audio context when present.  Recorder
member accesses go through `deref` behind the truthiness guard from the source. -/
def stopRecording (s : STTState) : Except String (STTState × List StopEvent) := do
  let (s, evs) ←
    if s.mediaRecorder.isSome then do
      let st ← deref s.mediaRecorder
      if st ≠ RecState.inactive then do
        let _ ← deref s.mediaRecorder
        Except.ok ({ s with mediaRecorder := some RecState.inactive
                          , status := "录音已停止" },
                   [StopEvent.stopRecorder])
      else Except.ok (s, ([] : List StopEvent))
    else Except.ok (s, ([] : List StopEvent))
  let evs := evs ++ (if s.silenceTimer.isSome then [StopEvent.clearSilenceTimer] else [])
  let s := clearSilenceTimeout s
  let (s, evs) :=
    match s.animationFrameId with
    | some _ => ({ s with animationFrameId := none }, evs ++ [StopEvent.cancelFrame])
    | none => (s, evs)
  let (s, evs) :=
    if s.audioContext then
      ({ s with audioContext := false }, evs ++ [StopEvent.closeAudioContext])
    else (s, evs)
  Except.ok (s, evs)

/-- The `stop()` (useSTT.js:472-475): `stopListening()` then `stopRecording()`. -/
def stop (s : STTState) : Except String (STTState × List StopEvent) := do
  let (s, evs1) ← stopListening s
  let (s, evs2) ← stopRecording s
  Except.ok (s, evs1 ++ evs2)

/-- The `onUnmounted` teardown (useSTT.js:489-493): clear the listening and
wake-detected flags, then call `stop()`. -/
def onUnmountedTeardown (s : STTState) : Except String (STTState × List StopEvent) :=
  stop { s with isListening := false, isPromptDetected := false }

/-- The state at module load: every ref at its declared initial value, no
resources, no timers. -/
def initialState : STTState :=
  { error := ""
  , status := "未初始化"
  , talkText := ""
  , permissionStatus := "init"
  , isRecording := false
  , conversationHistory := []
  , silenceTimer := none
  , recognition := false
  , mediaRecorder := none
  , audioContext := false
  , audioChunks := []
  , animationFrameId := none
  , isListening := false
  , isPromptDetected := false
  , isWaitingForResponse := false
  , isInitialized := false
  , pendingSilence := []
  , nextTimerId := 0
  , nextFrameId := 0 }

/-- A capable browser environment. -/
def fullEnv : Env := { speechRecognitionSupported := true, getUserMediaSupported := true }

/-- After a successful `start()` from the initial state: initialized and
listening for the wake word. -/
def listeningState : STTState :=
  (start initialState fullEnv PermissionOutcome.granted).1

/-- After a wake-phrase match and a granted microphone permission: a live
recording session. -/
def recordingState : STTState :=
  requestPermissionAndStartRecording
    (handleRecognitionResult listeningState ("小瞳小瞳")).1 PermissionOutcome.granted

/-- The live session after one encoded chunk has arrived. -/
def recordedState : STTState := onDataAvailable recordingState 5

/-- After the resource cleanup of the stop handler, before dispatch. -/
def cleanedState : STTState := (cleanupRecordingResources recordedState).1

/-- Mid-flight (the Transcribing state of the orchestrator): the dispatcher has
issued the remote request and is awaiting the response. -/
def transcribingState : STTState :=
  (processAudioStart cleanedState recordedState.audioChunks).1

/-- After a successful non-empty transcription was applied. -/
def afterSuccessState : STTState :=
  (processAudioWithModel cleanedState cleanedState.audioChunks
    (TranscriptionResponse.success (some ("你好"))) ("t1")).1

/-- C1: if a transcription request is already in flight when
`processAudioWithModel` is called, the call is a no-op — no request is
issued, the state (in particular Result Text and Conversation History) is
unchanged, and the payload is dropped; otherwise the in-flight guard is set
in the state from which the remote call is issued, the request carries the
payload and the fixed model identifier, and the guard is cleared again on
every completion path (success and failure alike), so two requests are never
in flight simultaneously. -/
theorem single_flight_dispatch (s : STTState) (blob : List Nat)
    (resp : TranscriptionResponse) (now : String) :
    (s.isWaitingForResponse = true →
      processAudioWithModel s blob resp now = (s, none)) ∧
    (s.isWaitingForResponse = false →
      (processAudioStart s blob).1.isWaitingForResponse = true ∧
      (processAudioStart s blob).2 =
        some { file := blob, model := "FunAudioLLM/SenseVoiceSmall" } ∧
      (processAudioWithModel s blob resp now).1.isWaitingForResponse = false ∧
      (processAudioWithModel s blob resp now).2 =
        some { file := blob, model := "FunAudioLLM/SenseVoiceSmall" }) := by
  constructor
  · intro h
    simp [processAudioWithModel, processAudioStart, h]
  · intro h
    cases resp <;>
      simp [processAudioWithModel, processAudioStart, processAudioComplete, h]

/-- Witness for C1 at concrete states: a call made while a request is in
flight is dropped whole, and a call made with the guard clear ends with the
guard clear. -/
theorem single_flight_dispatch_witness :
    processAudioWithModel transcribingState [7]
      (TranscriptionResponse.success (some ("hi"))) ("t0") = (transcribingState, none) ∧
    (processAudioWithModel cleanedState [7]
      (TranscriptionResponse.success (some ("hi"))) ("t0")).1.isWaitingForResponse = false :=
  ⟨(single_flight_dispatch transcribingState [7]
      (TranscriptionResponse.success (some ("hi"))) ("t0")).1 (by decide),
   ((single_flight_dispatch cleanedState [7]
      (TranscriptionResponse.success (some ("hi"))) ("t0")).2 (by decide)).2.2.1⟩

/-- C2 counterexample: while a transcription is in flight (the Transcribing state of
the orchestrator) the wake-detected and recording flags are both clear, so
a recognition result containing the wake phrase is not ignored — the wake
path (whose first step is a microphone permission request) is invoked. -/
theorem wake_during_transcribing_counterexample :
    transcribingState.isWaitingForResponse = true ∧
    transcribingState.isRecording = false ∧
    (handleRecognitionResult transcribingState ("小瞳小瞳")).2 = true := by decide

/-- C2 amended: a wake-phrase match is ignored (no permission request, no
state change) whenever the wake-detected flag or the recording flag is set —
the Recording and AwaitingPermission states; the wake path is invoked exactly
when both flags are clear and the trimmed transcript contains the wake-phrase
substring.  During Transcribing both flags are clear, so a match there is
acted on, not ignored (a slow transcription does not block a new wake cycle). -/
theorem wake_guard (s : STTState) (t : String) :
    ((s.isPromptDetected = true ∨ s.isRecording = true) →
      handleRecognitionResult s t = (s, false)) ∧
    ((handleRecognitionResult s t).2 = true ↔
      s.isPromptDetected = false ∧ s.isRecording = false ∧
      listContainsSeq WAKE_WORD.data (jsTrim t) = true) := by
  unfold handleRecognitionResult
  constructor
  · rintro (h | h) <;> simp [h]
  · cases hp : s.isPromptDetected <;> cases hr : s.isRecording <;>
      cases hw : listContainsSeq WAKE_WORD.data (jsTrim t) <;> simp [hp, hr, hw]

/-- Witness for C2 (amended) at a concrete state: during a live recording
session a wake-phrase match changes nothing. -/
theorem wake_guard_witness :
    handleRecognitionResult recordingState ("小瞳小瞳") = (recordingState, false) :=
  (wake_guard recordingState ("小瞳小瞳")).1 (Or.inr (by decide))

/-- C3 counterexample: after a successful transcription set Result Text to a
non-empty value, a subsequent success with empty text overwrites it with the
empty string, so Result Text does not remain unchanged at its prior value. -/
theorem empty_text_overwrites_counterexample :
    afterSuccessState.talkText = "你好" ∧
    (processAudioWithModel afterSuccessState [6]
      (TranscriptionResponse.success (some (""))) ("t2")).1.talkText = "" := by decide

/-- C3 amended: on a successful response with empty text the dispatcher sets
the status, appends no Conversation History record, and overwrites Result
Text with the empty string (it is not retained); on a successful response
with non-empty text it overwrites Result Text with that text and appends one
history record. -/
theorem empty_text_updates (s : STTState) (blob : List Nat) (now : String)
    (h : s.isWaitingForResponse = false) :
    ((processAudioWithModel s blob
        (TranscriptionResponse.success (some (""))) now).1.talkText = "" ∧
     (processAudioWithModel s blob
        (TranscriptionResponse.success (some (""))) now).1.conversationHistory =
       s.conversationHistory ∧
     (processAudioWithModel s blob
        (TranscriptionResponse.success (some (""))) now).1.status = "大模型识别成功") ∧
    (∀ txt : String, txt ≠ "" →
      (processAudioWithModel s blob
        (TranscriptionResponse.success (some txt)) now).1.talkText = txt ∧
      (processAudioWithModel s blob
        (TranscriptionResponse.success (some txt)) now).1.conversationHistory =
        s.conversationHistory ++
          [({ type := "user", text := txt, timestamp := now } : HistoryRecord)]) := by
  refine ⟨?_, ?_⟩
  · simp [processAudioWithModel, processAudioStart, processAudioComplete, h]
  · intro txt htxt
    simp [processAudioWithModel, processAudioStart, processAudioComplete, h, htxt]

/-- Witness for C3 (amended) at a concrete state. -/
theorem empty_text_updates_witness :
    (processAudioWithModel cleanedState [9]
      (TranscriptionResponse.success (some ("早安"))) ("t3")).1.talkText = "早安" :=
  ((empty_text_updates cleanedState [9] ("t3") (by decide)).2 ("早安") (by decide)).1

/-- Field-wise description of the state left by `cleanupRecordingResources`:
the referenced silence timeout is cancelled, every resource handle is
nulled, the recording and wake-detected flags are reset, and everything else
is untouched. -/
theorem cleanup_state_fields (s : STTState) :
    (cleanupRecordingResources s).1.mediaRecorder = none ∧
    (cleanupRecordingResources s).1.audioContext = false ∧
    (cleanupRecordingResources s).1.animationFrameId = none ∧
    (cleanupRecordingResources s).1.isRecording = false ∧
    (cleanupRecordingResources s).1.isPromptDetected = false ∧
    (cleanupRecordingResources s).1.pendingSilence =
      (clearSilenceTimeout s).pendingSilence ∧
    (cleanupRecordingResources s).1.audioChunks = s.audioChunks ∧
    (cleanupRecordingResources s).1.status = s.status ∧
    (cleanupRecordingResources s).1.error = s.error ∧
    (cleanupRecordingResources s).1.isWaitingForResponse = s.isWaitingForResponse ∧
    (cleanupRecordingResources s).1.silenceTimer = s.silenceTimer := by
  unfold cleanupRecordingResources clearSilenceTimeout
  cases hm : s.mediaRecorder <;> cases hc : s.audioContext <;>
    cases ha : s.animationFrameId <;> cases ht : s.silenceTimer <;>
    simp [hm, hc, ha, ht]

/-- The event trace of `cleanupRecordingResources`: stream tracks first,
then the conditional recorder and audio-context releases, then the timer
clear, then the conditional frame cancellation. -/
theorem cleanup_event_trace (s : STTState) :
    (cleanupRecordingResources s).2 =
      [CleanupEvent.stopTracks] ++
      (if s.mediaRecorder.isSome then [CleanupEvent.releaseRecorder] else []) ++
      (if s.audioContext then [CleanupEvent.closeAudioContext] else []) ++
      [CleanupEvent.clearSilenceTimer] ++
      (if s.animationFrameId.isSome then [CleanupEvent.cancelFrame] else []) := by
  unfold cleanupRecordingResources clearSilenceTimeout
  cases hm : s.mediaRecorder <;> cases hc : s.audioContext <;>
    cases ha : s.animationFrameId <;> cases ht : s.silenceTimer <;>
    simp [hm, hc, ha, ht]

/-- The cleanup trace never contains a dispatch or a payload assembly. -/
theorem cleanup_no_dispatch (s : STTState) :
    CleanupEvent.dispatch ∉ (cleanupRecordingResources s).2 ∧
    CleanupEvent.assemblePayload ∉ (cleanupRecordingResources s).2 := by
  rw [cleanup_event_trace]
  constructor <;>
    · intro h
      simp only [List.mem_append, List.mem_singleton] at h
      rcases h with ((((h | h) | h) | h) | h) <;>
        first
          | exact absurd h (by decide)
          | (split at h <;> simp_all)

/-- C4 counterexample: at a live recording session, cleanup stops the stream
tracks, releases the recorder and closes the audio context before clearing
the silence timer — the timer clear is fourth, not first — so the Silence
Timer is not cleared before the session resources are released. -/
theorem cleanup_order_counterexample :
    (cleanupRecordingResources recordedState).2 =
      [CleanupEvent.stopTracks, CleanupEvent.releaseRecorder,
       CleanupEvent.closeAudioContext, CleanupEvent.clearSilenceTimer,
       CleanupEvent.cancelFrame] ∧
    ¬ (List.indexOf CleanupEvent.clearSilenceTimer
         (cleanupRecordingResources recordedState).2 <
       List.indexOf CleanupEvent.stopTracks
         (cleanupRecordingResources recordedState).2) := by decide

/-- C4 amended: on every teardown path the silence timeout is cancelled
within the same synchronous cleanup call — after the stream, recorder, and
audio-context releases rather than before them — and cleanup also nulls the
recorder, so the pending silence countdown referenced by the session is gone
after cleanup, and a silence-timeout callback that still fires afterwards
finds no recording recorder and does nothing: no timer fires against a
destroyed session. -/
theorem cleanup_clears_timer (s : STTState) :
    CleanupEvent.clearSilenceTimer ∈ (cleanupRecordingResources s).2 ∧
    (∀ id, s.silenceTimer = some id →
      ∀ p ∈ (cleanupRecordingResources s).1.pendingSilence, p.1 ≠ id) ∧
    (cleanupRecordingResources s).1.mediaRecorder = none ∧
    silenceTimeoutCallback (cleanupRecordingResources s).1 =
      ((cleanupRecordingResources s).1, false) := by
  refine ⟨?_, ?_, (cleanup_state_fields s).1, ?_⟩
  · rw [cleanup_event_trace]
    simp
  · intro id hid p hp
    rw [(cleanup_state_fields s).2.2.2.2.2.1] at hp
    unfold clearSilenceTimeout at hp
    rw [hid] at hp
    simp only [List.mem_filter, decide_eq_true_eq] at hp
    exact hp.2
  · unfold silenceTimeoutCallback
    rw [(cleanup_state_fields s).1]
    simp

/-- Witness for C4 (amended) at a concrete live session. -/
theorem cleanup_clears_timer_witness :
    CleanupEvent.clearSilenceTimer ∈ (cleanupRecordingResources recordedState).2 ∧
    silenceTimeoutCallback (cleanupRecordingResources recordedState).1 =
      ((cleanupRecordingResources recordedState).1, false) ∧
    (0, 1500) ∉ (cleanupRecordingResources recordedState).1.pendingSilence :=
  ⟨(cleanup_clears_timer recordedState).1,
   (cleanup_clears_timer recordedState).2.2.2,
   fun hp =>
     (cleanup_clears_timer recordedState).2.1 0 (by decide) (0, 1500) hp rfl⟩

/-- C5: the stop handler assembles the buffered chunks into one payload in
arrival order (the payload is exactly the chunk buffer); for a live session
(recorder, audio context, and monitor frame present) it releases the stream
tracks, the recorder, the audio context, and the silence timer, in that
order — cleanup running even when the buffer holds zero chunks — and only
after all cleanup events does the `dispatch` event hand the payload to the
Transcription Dispatcher; when the in-flight guard was clear the issued
request carries exactly the assembled payload. -/
theorem onstop_assembles_cleans_dispatches (s : STTState)
    (resp : TranscriptionResponse) (now : String)
    (hm : s.mediaRecorder.isSome = true) (hc : s.audioContext = true)
    (ha : s.animationFrameId.isSome = true) :
    (mediaRecorderOnStop s resp now).2.2.1 = s.audioChunks ∧
    (mediaRecorderOnStop s resp now).2.1 =
      [CleanupEvent.assemblePayload, CleanupEvent.stopTracks,
       CleanupEvent.releaseRecorder, CleanupEvent.closeAudioContext,
       CleanupEvent.clearSilenceTimer, CleanupEvent.cancelFrame,
       CleanupEvent.dispatch] ∧
    (s.isWaitingForResponse = false →
      (mediaRecorderOnStop s resp now).2.2.2 =
        some { file := s.audioChunks, model := "FunAudioLLM/SenseVoiceSmall" }) := by
  refine ⟨rfl, ?_, ?_⟩
  · show CleanupEvent.assemblePayload :: (cleanupRecordingResources s).2 ++
        [CleanupEvent.dispatch] = _
    rw [cleanup_event_trace]
    simp [hm, hc, ha]
  · intro hw
    show ((processAudioWithModel (cleanupRecordingResources s).1
        s.audioChunks resp now).2 = _)
    have hguard : (cleanupRecordingResources s).1.isWaitingForResponse = false :=
      ((cleanup_state_fields s).2.2.2.2.2.2.2.2.2.1).trans hw
    simp [processAudioWithModel, processAudioStart, hguard]

/-- Witness for C5 at a live session whose chunk buffer is empty: cleanup
and dispatch still run, with the empty payload. -/
theorem onstop_assembles_cleans_dispatches_witness :
    (mediaRecorderOnStop recordingState
      (TranscriptionResponse.failure none) ("t4")).2.2.1 = [] ∧
    (mediaRecorderOnStop recordingState
      (TranscriptionResponse.failure none) ("t4")).2.1 =
      [CleanupEvent.assemblePayload, CleanupEvent.stopTracks,
       CleanupEvent.releaseRecorder, CleanupEvent.closeAudioContext,
       CleanupEvent.clearSilenceTimer, CleanupEvent.cancelFrame,
       CleanupEvent.dispatch] :=
  ⟨((onstop_assembles_cleans_dispatches recordingState
      (TranscriptionResponse.failure none) ("t4")
      (by decide) (by decide) (by decide)).1).trans (by decide),
   (onstop_assembles_cleans_dispatches recordingState
      (TranscriptionResponse.failure none) ("t4")
      (by decide) (by decide) (by decide)).2.1⟩

/-- C8: on an encoder-level error the handler sets the error text and an
error status, runs exactly the same resource-release path as a normal stop
(identical cleanup trace; recorder, audio context, and monitor frame all
released and the referenced silence timeout cancelled), leaves the in-flight
guard untouched, and hands nothing to the dispatcher: no payload is
assembled and no dispatch event occurs. -/
theorem onerror_cleans_no_dispatch (s : STTState) (msg : String) :
    (mediaRecorderOnError s msg).1.status = "录音失败" ∧
    (mediaRecorderOnError s msg).1.error = "录音失败: " ++ msg ∧
    (mediaRecorderOnError s msg).2 = (cleanupRecordingResources s).2 ∧
    (mediaRecorderOnError s msg).1.mediaRecorder = none ∧
    (mediaRecorderOnError s msg).1.audioContext = false ∧
    (mediaRecorderOnError s msg).1.animationFrameId = none ∧
    (∀ id, s.silenceTimer = some id →
      ∀ p ∈ (mediaRecorderOnError s msg).1.pendingSilence, p.1 ≠ id) ∧
    (mediaRecorderOnError s msg).1.isWaitingForResponse = s.isWaitingForResponse ∧
    CleanupEvent.dispatch ∉ (mediaRecorderOnError s msg).2 ∧
    CleanupEvent.assemblePayload ∉ (mediaRecorderOnError s msg).2 := by
  unfold mediaRecorderOnError
  refine ⟨?_, ?_, ?_, (cleanup_state_fields _).1, (cleanup_state_fields _).2.1,
    (cleanup_state_fields _).2.2.1, ?_, ?_, ?_, ?_⟩
  · rw [(cleanup_state_fields _).2.2.2.2.2.2.2.1]
  · rw [(cleanup_state_fields _).2.2.2.2.2.2.2.2.1]
  · rw [cleanup_event_trace, cleanup_event_trace]
  · intro id hid p hp
    rw [(cleanup_state_fields _).2.2.2.2.2.1] at hp
    unfold clearSilenceTimeout at hp
    simp only at hp
    rw [show ({ s with error := "录音失败: " ++ msg, status := "录音失败"
              } : STTState).silenceTimer = s.silenceTimer from rfl, hid] at hp
    simp only [List.mem_filter, decide_eq_true_eq] at hp
    exact hp.2
  · rw [(cleanup_state_fields _).2.2.2.2.2.2.2.2.2.1]
  · exact (cleanup_no_dispatch _).1
  · exact (cleanup_no_dispatch _).2

/-- Witness for C8 at a concrete live session. -/
theorem onerror_cleans_no_dispatch_witness :
    (mediaRecorderOnError recordedState ("device lost")).1.status = "录音失败" ∧
    CleanupEvent.dispatch ∉ (mediaRecorderOnError recordedState ("device lost")).2 :=
  ⟨(onerror_cleans_no_dispatch recordedState ("device lost")).1,
   (onerror_cleans_no_dispatch recordedState ("device lost")).2.2.2.2.2.2.2.2.1⟩

/-- C6: `resetSilenceTimer` first cancels the countdown referenced by the
`silenceTimer` variable and then schedules a single new countdown of the
fixed `SILENCE_TIMEOUT` = 1500 ms: when every pending silence entry was the
referenced one (at most one pending per session), afterwards exactly the
fresh countdown is pending; a previously referenced id (ids being allocated
below the fresh counter) can no longer fire, so only the latest deadline
does; and on natural expiry the callback stops the recorder iff its state is
still `recording`. -/
theorem reset_silence_timer_single (s : STTState)
    (hone : ∀ p ∈ s.pendingSilence, s.silenceTimer = some p.1) :
    ((resetSilenceTimer s).pendingSilence = [(s.nextTimerId, SILENCE_TIMEOUT)] ∧
     SILENCE_TIMEOUT = 1500 ∧
     (resetSilenceTimer s).silenceTimer = some s.nextTimerId) ∧
    (∀ id, s.silenceTimer = some id → id < s.nextTimerId →
      ∀ p ∈ (resetSilenceTimer s).pendingSilence, p.1 ≠ id) ∧
    (∀ t : STTState, (silenceTimeoutCallback t).2 = true ↔
      t.mediaRecorder = some RecState.recording) := by
  refine ⟨⟨?_, rfl, ?_⟩, ?_, ?_⟩
  · unfold resetSilenceTimer clearSilenceTimeout
    cases ht : s.silenceTimer with
    | none =>
      have hnil : s.pendingSilence = [] := by
        cases hps : s.pendingSilence with
        | nil => rfl
        | cons a l =>
          have := hone a (by rw [hps]; exact List.mem_cons_self a l)
          rw [ht] at this
          cases this
      simp [hnil]
    | some id0 =>
      simp [ht]
      intro a b hab
      have := hone (a, b) hab
      rw [ht] at this
      injection this with h0
      exact h0.symm
  · unfold resetSilenceTimer clearSilenceTimeout
    cases ht : s.silenceTimer <;> simp
  · intro id hid hlt p hp
    cases ht : s.silenceTimer with
    | none => rw [ht] at hid; cases hid
    | some id0 =>
      rw [ht] at hid
      injection hid with h0
      subst h0
      unfold resetSilenceTimer clearSilenceTimeout at hp
      rw [ht] at hp
      simp only [List.mem_append, List.mem_singleton] at hp
      rcases hp with hp | hp
      · have := (List.mem_filter.1 hp).2
        simpa using this
      · rw [hp]
        exact ne_of_gt hlt
  · intro t
    unfold silenceTimeoutCallback
    split <;> simp_all

/-- Witness for C6 at a concrete live session (one pending countdown with
id 0, fresh counter 1): re-arming leaves exactly the fresh 1500 ms
countdown pending, the old id can no longer fire, and the expiry callback
stops a recording recorder but does nothing after teardown. -/
theorem reset_silence_timer_single_witness :
    (resetSilenceTimer recordingState).pendingSilence =
      [(recordingState.nextTimerId, SILENCE_TIMEOUT)] ∧
    ((0 : Nat), (1500 : Nat)) ∉ (resetSilenceTimer recordingState).pendingSilence ∧
    (silenceTimeoutCallback transcribingState).2 = false := by
  refine ⟨(reset_silence_timer_single recordingState (by decide)).1.1, ?_, ?_⟩
  · intro hp
    exact (reset_silence_timer_single recordingState (by decide)).2.1
      0 (by decide) (by decide) (0, 1500) hp rfl
  · have hiff :=
      (reset_silence_timer_single recordingState (by decide)).2.2 transcribingState
    cases hb : (silenceTimeoutCallback transcribingState).2 with
    | false => rfl
    | true => exact absurd (hiff.1 hb) (by decide)

/-- C7: a poll tick finding the recorder gone or not in `recording` state
returns unchanged — no sampling, no silence-timer reset, no re-scheduling;
while recording, every tick samples and re-schedules itself, and it resets
the silence timer exactly when the arithmetic mean of the frame of the
frequency-bin magnitudes exceeds the fixed threshold 20 (for a non-empty
frame this is exact rational `sum / length > 20`), the reset scheduling a
fresh `SILENCE_TIMEOUT` countdown. -/
theorem energy_monitor_tick (s : STTState) (samples : List Nat) :
    (s.mediaRecorder ≠ some RecState.recording →
      checkAudioEnergy s samples = ⟨s, false, false, false⟩) ∧
    (s.mediaRecorder = some RecState.recording →
      (checkAudioEnergy s samples).sampled = true ∧
      (checkAudioEnergy s samples).rescheduled = true ∧
      ((checkAudioEnergy s samples).timerReset = true ↔
        AUDIO_ENERGY_THRESHOLD * samples.length < samples.sum) ∧
      (samples ≠ [] →
        ((checkAudioEnergy s samples).timerReset = true ↔
          (20 : ℚ) < (samples.sum : ℚ) / (samples.length : ℚ))) ∧
      ((checkAudioEnergy s samples).timerReset = true →
        (checkAudioEnergy s samples).state.pendingSilence =
          (clearSilenceTimeout s).pendingSilence ++
            [(s.nextTimerId, SILENCE_TIMEOUT)])) := by
  constructor
  · intro h
    unfold checkAudioEnergy
    cases hm : s.mediaRecorder with
    | none => rfl
    | some st =>
      cases st with
      | recording => exact absurd hm h
      | inactive => rfl
      | paused => rfl
  · intro h
    unfold checkAudioEnergy
    rw [h]
    refine ⟨rfl, rfl, ?_, ?_, ?_⟩
    · simp [averageEnergyExceeds]
    · intro hne
      have hlen : 0 < samples.length := List.length_pos.2 hne
      have hq : (0 : ℚ) < (samples.length : ℚ) := by exact_mod_cast hlen
      rw [lt_div_iff₀ hq]
      simp only [averageEnergyExceeds, decide_eq_true_eq, AUDIO_ENERGY_THRESHOLD]
      rw [show ((20 : ℚ) * (samples.length : ℚ)) =
          ((20 * samples.length : ℕ) : ℚ) by push_cast; ring]
      exact_mod_cast Iff.rfl
    · cases hx : averageEnergyExceeds samples with
      | false => intro hfalse; cases hfalse
      | true =>
        intro _
        show (resetSilenceTimer s).pendingSilence = _
        unfold resetSilenceTimer clearSilenceTimeout
        cases ht : s.silenceTimer <;> simp [ht]

/-- Witness for C7 at concrete states: a stale tick after teardown does not
sample; a loud frame resets the timer, a silent frame does not, and ticks
while recording re-schedule. -/
theorem energy_monitor_tick_witness :
    (checkAudioEnergy transcribingState [255]).sampled = false ∧
    (checkAudioEnergy recordingState [255, 255]).timerReset = true ∧
    (checkAudioEnergy recordingState [0, 0]).timerReset = false ∧
    (checkAudioEnergy recordingState [0]).rescheduled = true := by
  refine ⟨?_, ?_, ?_, ?_⟩
  · rw [(energy_monitor_tick transcribingState [255]).1 (by decide)]
  · exact (((energy_monitor_tick recordingState [255, 255]).2
      (by decide)).2.2.1).2 (by decide)
  · have hiff := ((energy_monitor_tick recordingState [0, 0]).2 (by decide)).2.2.1
    cases hb : (checkAudioEnergy recordingState [0, 0]).timerReset with
    | false => rfl
    | true => exact absurd (hiff.1 hb) (by decide)
  · exact ((energy_monitor_tick recordingState [0]).2 (by decide)).2.1

/-- C9: `stop()` — and the unmount teardown that invokes it — is safe from
every state: it never raises (every member access on a nullable resource sits
behind a truthiness guard); from the pre-init state, with no recognition
instance, recorder, audio context, frame, or timer, it performs no operation
on any absent resource and returns the state unchanged; and with every
resource present and active it stops the listener, stops the recording,
clears the silence timer, cancels the pending animation frame, and closes
the audio context, in that order. -/
theorem stop_safe (s : STTState) :
    (∃ r, stop s = Except.ok r) ∧
    (∃ r, onUnmountedTeardown s = Except.ok r) ∧
    ((s.recognition = false ∧ s.mediaRecorder = none ∧ s.audioContext = false ∧
      s.animationFrameId = none ∧ s.silenceTimer = none) →
      stop s = Except.ok (s, [])) ∧
    ((s.recognition = true ∧ s.isListening = true ∧
      s.mediaRecorder = some RecState.recording ∧ s.silenceTimer.isSome = true ∧
      s.animationFrameId.isSome = true ∧ s.audioContext = true) →
      ∃ s2, stop s = Except.ok (s2,
          [StopEvent.stopRecognition, StopEvent.stopRecorder,
           StopEvent.clearSilenceTimer, StopEvent.cancelFrame,
           StopEvent.closeAudioContext]) ∧
        s2.isListening = false ∧ s2.mediaRecorder = some RecState.inactive ∧
        s2.animationFrameId = none ∧ s2.audioContext = false ∧
        (∀ id, s.silenceTimer = some id →
          ∀ p ∈ s2.pendingSilence, p.1 ≠ id)) := by
  have htotal : ∀ t : STTState, ∃ r, stop t = Except.ok r := by
    intro t
    obtain ⟨er, st2, tt, pst, ir, ch, sti, rec, mr, ac, ak, afi, il, ipd, iwr,
      ii, pls, nti, nfi⟩ := t
    cases rec <;> cases il <;>
      rcases mr with _ | st <;> (try cases st) <;>
      cases ac <;> rcases afi with _ | fid <;> rcases sti with _ | tid <;>
      exact ⟨_, rfl⟩
  refine ⟨htotal s, ?_, ?_, ?_⟩
  · obtain ⟨r, h⟩ :=
      htotal { s with isListening := false, isPromptDetected := false }
    exact ⟨r, h⟩
  · obtain ⟨er, st2, tt, pst, ir, ch, sti, rec, mr, ac, ak, afi, il, ipd, iwr,
      ii, pls, nti, nfi⟩ := s
    rintro ⟨h1, h2, h3, h4, h5⟩
    subst h1; subst h2; subst h3; subst h4; subst h5
    cases il <;> rfl
  · obtain ⟨er, st2, tt, pst, ir, ch, sti, rec, mr, ac, ak, afi, il, ipd, iwr,
      ii, pls, nti, nfi⟩ := s
    rintro ⟨h1, h2, h3, h4, h5, h6⟩
    subst h1; subst h2; subst h3; subst h6
    obtain ⟨tid, htid⟩ := Option.isSome_iff_exists.1 h4
    obtain ⟨fid, hfid⟩ := Option.isSome_iff_exists.1 h5
    subst htid; subst hfid
    refine ⟨_, rfl, rfl, rfl, rfl, rfl, ?_⟩
    intro id hid p hp
    injection hid with h0
    subst h0
    have hp2 : p ∈ List.filter (fun q => decide (q.1 ≠ tid)) pls := hp
    exact of_decide_eq_true (List.mem_filter.1 hp2).2

/-- Witness for C9 at concrete states: `stop()` before init is a no-op on
the initial state, and `stop()` from a live recording-and-listening session
releases everything in order. -/
theorem stop_safe_witness :
    stop initialState = Except.ok (initialState, []) ∧
    (∃ r, onUnmountedTeardown recordedState = Except.ok r) ∧
    (∃ s2, stop recordedState = Except.ok (s2,
        [StopEvent.stopRecognition, StopEvent.stopRecorder,
         StopEvent.clearSilenceTimer, StopEvent.cancelFrame,
         StopEvent.closeAudioContext]) ∧
      s2.isListening = false ∧ s2.mediaRecorder = some RecState.inactive ∧
      s2.animationFrameId = none ∧ s2.audioContext = false ∧
      (∀ id, recordedState.silenceTimer = some id →
        ∀ p ∈ s2.pendingSilence, p.1 ≠ id)) :=
  ⟨(stop_safe initialState).2.2.1 (by exact ⟨rfl, rfl, rfl, rfl, rfl⟩),
   (stop_safe recordedState).2.1,
   (stop_safe recordedState).2.2.2 (by refine ⟨?_, ?_, ?_, ?_, ?_, ?_⟩ <;> decide)⟩

/-- C10: the promise returned by `start()` always settles by resolution and
never rejects: it resolves `false` when initialization fails, and in the
permission-request branch a rejection of the microphone request resolves
`false` after resetting the listening flag; it resolves `true` when
permission is granted and recognition starts, and likewise when the listener
is already listening. -/
theorem start_always_resolves (s : STTState) (env : Env) (perm : PermissionOutcome) :
    (∃ b, (start s env perm).2 = PromiseOutcome.resolved b) ∧
    (s.isInitialized = false → (init s env).2 = false →
      (start s env perm).2 = PromiseOutcome.resolved false) ∧
    (s.isInitialized = true → s.recognition = true → s.isListening = false →
      ((start s env PermissionOutcome.granted).2 = PromiseOutcome.resolved true ∧
       (∀ name msg,
         (start s env (PermissionOutcome.denied name msg)).2 =
           PromiseOutcome.resolved false ∧
         (start s env (PermissionOutcome.denied name msg)).1.isListening =
           false))) ∧
    (s.isInitialized = true → s.isListening = true →
      (start s env perm).2 = PromiseOutcome.resolved true) := by
  obtain ⟨er, st2, tt, pst, ir, ch, sti, rec, mr, ac, ak, afi, il, ipd, iwr,
    ii, pls, nti, nfi⟩ := s
  obtain ⟨sr, gm⟩ := env
  refine ⟨?_, ?_, ?_, ?_⟩
  · cases ii <;> cases sr <;> cases gm <;> cases rec <;> cases il <;>
      cases perm <;> exact ⟨_, rfl⟩
  · intro h1 h2
    subst h1
    cases sr <;> cases gm <;> first | rfl | simp [init] at h2
  · intro h1 h2 h3
    subst h1; subst h2; subst h3
    exact ⟨rfl, fun name msg => ⟨rfl, rfl⟩⟩
  · intro h1 h2
    subst h1; subst h2
    cases rec <;> rfl

/-- Witness for C10 at concrete states: an unsupported browser resolves
`false`, a second `start()` while already listening resolves `true`, and a
permission rejection after init resolves `false`. -/
theorem start_always_resolves_witness :
    (start initialState
      { speechRecognitionSupported := false, getUserMediaSupported := false }
      PermissionOutcome.granted).2 = PromiseOutcome.resolved false ∧
    (start listeningState fullEnv PermissionOutcome.granted).2 =
      PromiseOutcome.resolved true ∧
    (start (init initialState fullEnv).1 fullEnv
      (PermissionOutcome.denied ("NotAllowedError") ("denied"))).2 =
      PromiseOutcome.resolved false :=
  ⟨(start_always_resolves initialState
      { speechRecognitionSupported := false, getUserMediaSupported := false }
      PermissionOutcome.granted).2.1 (by decide) (by decide),
   (start_always_resolves listeningState fullEnv
      PermissionOutcome.granted).2.2.2 (by decide) (by decide),
   (((start_always_resolves (init initialState fullEnv).1 fullEnv
      (PermissionOutcome.denied ("NotAllowedError") ("denied"))).2.2.1
        (by decide) (by decide) (by decide)).2 ("NotAllowedError") ("denied")).1⟩

end STT

